import Mathlib

/-!
Shallow embedding of the geocoding-wsgi repository: the multi-provider
lookup engine (`src/geocode/requests.py`) and the WSGI dispatch layer
(`src/service/service.py`), together with theorems settling the frozen
claims about them.

Conventions of the embedding:
* Python values produced by `json.loads(data, parse_float=str)` are
  modelled by `JValue`.  Because the source always parses with
  `parse_float=str`, a float literal is a Python `str` holding the exact
  literal text; the constructor `JValue.jfloat` records that text.
* A response body handed to `process_response` is `Option JValue`:
  `none` stands for text that is not valid JSON (where `json.loads`
  raises `JSONDecodeError`), `some js` for text parsing to `js`.
* Python exceptions are values of `PyExc`; fallible operations return
  `Except PyExc _`.  An exception escaping a Python function is an
  `Except.error` result of the embedded function.
-/

namespace GeocodeWsgi

/-- A Python value as produced by `json.loads(·, parse_float=str)`:
`jfloat lit` is the Python string that `parse_float=str` makes from a
float literal with source text `lit`; integer literals stay `jint`. -/
inductive JValue where
  | jnull
  | jbool (b : Bool)
  | jint (n : Int)
  | jfloat (lit : String)
  | jstr (s : String)
  | jarr (elems : List JValue)
  | jobj (fields : List (String × JValue))

/-- Python exception classes that appear in the embedded code. -/
inductive PyExc where
  | keyError
  | indexError
  | typeError
  | attributeError
  /-- Python's built-in `LookupError` (what the bare name `LookupError`
  resolves to inside `GeocodeApp.lookup`). -/
  | builtinLookupError
  /-- The class `GeocodeApp.LookupError` declared in `service.py`. -/
  | appLookupError
  deriving DecidableEq, Repr

/-- Python truthiness of a `JValue` (`jfloat` is a Python `str`, and a
float literal's text is never empty, hence always truthy). -/
def JValue.truthy : JValue → Bool
  | .jnull => false
  | .jbool b => b
  | .jint n => n != 0
  | .jfloat lit => lit != ""
  | .jstr s => s != ""
  | .jarr elems => !elems.isEmpty
  | .jobj fields => !fields.isEmpty

/-- Whether the Python value is a `str` (float literals parse to `str`
under `parse_float=str`; everything else keeps its own type). -/
def JValue.isPyStr : JValue → Bool
  | .jfloat _ => true
  | .jstr _ => true
  | _ => false

/-- First-match association-list lookup, the dictionary access used by
the parsed-JSON objects of the model. -/
def lookupKey : List (String × JValue) → String → Option JValue
  | [], _ => none
  | (k, v) :: rest, key => if k == key then some v else lookupKey rest key

/-- Python subscription `value[key]` with a string key: only a dict can
succeed; a missing key is `KeyError`, every non-dict is `TypeError`
(strings — including parsed float literals — ints, lists, `None` and
bools all reject string subscripts). -/
def getItemStr : JValue → String → Except PyExc JValue
  | .jobj fields, key =>
    match lookupKey fields key with
    | some v => .ok v
    | none => .error .keyError
  | _, _ => .error .typeError

/-- Python subscription `value[i]` with a non-negative int index.
Lists index or raise `IndexError`; strings (also parsed float literals,
which are Python `str`) index into a one-character string or raise
`IndexError`; a dict raises `KeyError` (parsed JSON keys are strings, so
an int key is never present); everything else raises `TypeError`. -/
def getItemIdx : JValue → Nat → Except PyExc JValue
  | .jarr elems, i =>
    match elems.get? i with
    | some v => .ok v
    | none => .error .indexError
  | .jstr s, i =>
    match s.toList.get? i with
    | some c => .ok (.jstr (String.mk [c]))
    | none => .error .indexError
  | .jfloat lit, i =>
    match lit.toList.get? i with
    | some c => .ok (.jstr (String.mk [c]))
    | none => .error .indexError
  | .jobj _, _ => .error .keyError
  | _, _ => .error .typeError

/-- The value `process_response` returns: the empty dict `{}` (location
not found) or the dict `{"lat": lat, "lng": lng}`.  A two-entry dict is
always truthy, the empty dict never is. -/
inductive ParseResult where
  | notFound
  | coord (lat lng : JValue)

/-- Body of `GoogleGeocodeService.process_response` after `json.loads`
succeeded with value `js`: `js['results']`, the `if not results` guard,
then `results[0]['geometry']['location']` and the `lat`/`lng` reads, in
source order.  Any raised `PyExc` is one of the classes the `except`
clause catches. -/
def googleExtract (js : JValue) : Except PyExc ParseResult :=
  match getItemStr js "results" with
  | .error e => .error e
  | .ok results =>
    if results.truthy then
      match getItemIdx results 0 with
      | .error e => .error e
      | .ok r0 =>
        match getItemStr r0 "geometry" with
        | .error e => .error e
        | .ok geometry =>
          match getItemStr geometry "location" with
          | .error e => .error e
          | .ok location =>
            match getItemStr location "lat" with
            | .error e => .error e
            | .ok lat =>
              match getItemStr location "lng" with
              | .error e => .error e
              | .ok lng => .ok (.coord lat lng)
    else
      .ok .notFound

/-- Body of `HEREGeocodeService.process_response` after `json.loads`
succeeded: `data['Response']['View']`, the `if not view` guard, then
`view[0]['Result'][0]['Location']['NavigationPosition'][0]` and the
`Latitude`/`Longitude` reads, in source order. -/
def hereExtract (js : JValue) : Except PyExc ParseResult :=
  match getItemStr js "Response" with
  | .error e => .error e
  | .ok response =>
    match getItemStr response "View" with
    | .error e => .error e
    | .ok view =>
      if view.truthy then
        match getItemIdx view 0 with
        | .error e => .error e
        | .ok v0 =>
          match getItemStr v0 "Result" with
          | .error e => .error e
          | .ok result =>
            match getItemIdx result 0 with
            | .error e => .error e
            | .ok r0 =>
              match getItemStr r0 "Location" with
              | .error e => .error e
              | .ok location =>
                match getItemStr location "NavigationPosition" with
                | .error e => .error e
                | .ok navPositions =>
                  match getItemIdx navPositions 0 with
                  | .error e => .error e
                  | .ok nav0 =>
                    match getItemStr nav0 "Latitude" with
                    | .error e => .error e
                    | .ok lat =>
                      match getItemStr nav0 "Longitude" with
                      | .error e => .error e
                      | .ok lng => .ok (.coord lat lng)
      else
        .ok .notFound

/-- `GoogleGeocodeService.process_response`: invalid JSON means
`json.loads` raises `JSONDecodeError`, and every `PyExc` escaping the
extraction is in the caught tuple `(JSONDecodeError, IndexError,
KeyError, TypeError)`; both become `DataProcessingError` (modelled as
`Except.error ()`). -/
def googleProcessResponse (body : Option JValue) : Except Unit ParseResult :=
  match body with
  | none => .error ()
  | some js =>
    match googleExtract js with
    | .ok r => .ok r
    | .error _ => .error ()

/-- `HEREGeocodeService.process_response`, same error discipline as the
Google adapter. -/
def hereProcessResponse (body : Option JValue) : Except Unit ParseResult :=
  match body with
  | none => .error ()
  | some js =>
    match hereExtract js with
    | .ok r => .ok r
    | .error _ => .error ()

/-- Model of Python's `str.replace(pat, rep)` on character lists:
leftmost, non-overlapping replacement of every occurrence.  The fuel
argument (instantiated with the list length) makes the recursion
structural so that the definition reduces definitionally. -/
def replaceAux (pat rep : List Char) : Nat → List Char → List Char
  | _, [] => []
  | 0, l => l
  | fuel + 1, c :: rest =>
    if pat.isPrefixOf (c :: rest) && !pat.isEmpty then
      rep ++ replaceAux pat rep fuel ((c :: rest).drop pat.length)
    else
      c :: replaceAux pat rep fuel rest

/-- Model of Python's `str.replace`. -/
def pyReplace (s pat rep : String) : String :=
  String.mk (replaceAux pat.toList rep.toList s.toList.length s.toList)

/-- The two entries of `GeocodeLookup.known_services`. -/
inductive ServiceKind where
  | google
  | here
  deriving DecidableEq, Repr

/-- The class attribute `url` of each service class: the default base
URL an instance starts with. -/
def ServiceKind.defaultUrl : ServiceKind → String
  | .google => "https://maps.googleapis.com/maps/api/geocode/json"
  | .here => "https://geocoder.api.here.com/6.2/geocode.json"

/-- The class attribute `required_credentials` of each service class. -/
def ServiceKind.requiredCredentials : ServiceKind → List String
  | .google => ["APP_KEY"]
  | .here => ["APP_ID", "APP_CODE"]

/-- `GeocodeLookup.known_services`: name to service class. -/
def knownServices : List (String × ServiceKind) :=
  [("google", .google), ("HERE", .here)]

/-- A constructed service object: its class and its current `url`
(default, or the value passed to `update_url` during construction). -/
structure ServiceInst where
  kind : ServiceKind
  url : String
  deriving DecidableEq, Repr

/-- One provider's credentials entry: a dict of named secret strings. -/
abbrev CredEntry := List (String × String)

/-- The credentials mapping: provider name to its entry. -/
abbrev Credentials := List (String × CredEntry)

/-- First-match lookup in an association list of strings (Python dict
access on parsed credential/config data). -/
def lookupEntry {α : Type} : List (String × α) → String → Option α
  | [], _ => none
  | (k, v) :: rest, key => if k == key then some v else lookupEntry rest key

/-- Shallow model of `urllib.parse.urlencode` on a fixed parameter
list.  The exact percent-escaping is not modelled; the claims depend
only on which credential fields `prepare` reads, never on the escaped
characters of the produced query string. -/
def urlencode (params : List (String × String)) : String :=
  String.intercalate "&" (params.map (fun p => p.1 ++ "=" ++ p.2))

/-- `prepare(self, credentials, location)` of the service classes.
Google reads `credentials["APP_KEY"]`; HERE reads
`credentials["APP_ID"]` and `credentials["APP_CODE"]`; a missing key is
a `KeyError` escaping `prepare`.  On success the outbound URL is
`self.url` joined to the encoded parameters with `?`. -/
def prepare (svc : ServiceInst) (credentials : CredEntry) (location : String) :
    Except PyExc String :=
  match svc.kind with
  | .google =>
    match lookupEntry credentials "APP_KEY" with
    | none => .error .keyError
    | some key =>
      .ok (svc.url ++ "?" ++ urlencode [("address", location), ("key", key)])
  | .here =>
    match lookupEntry credentials "APP_ID" with
    | none => .error .keyError
    | some appId =>
      match lookupEntry credentials "APP_CODE" with
      | none => .error .keyError
      | some appCode =>
        .ok (svc.url ++ "?" ++
          urlencode [("searchtext", location), ("app_id", appId), ("app_code", appCode)])

/-- Dispatch `process_response` through the service class. -/
def ServiceKind.processResponse : ServiceKind → Option JValue → Except Unit ParseResult
  | .google => googleProcessResponse
  | .here => hereProcessResponse

/-- The configuration dict as `GeocodeLookup.__init__` reads it: the
`"services"` key (absent, or a list of names) and, per service name,
the optional `"url"` override that `config.get(name, {}).get("url",
None)` would find. -/
structure Config where
  services : Option (List String)
  overrides : List (String × Option String)

/-- `config.get(name, {}).get("url", None)`. -/
def Config.urlOverride (config : Config) (name : String) : Option String :=
  match lookupEntry config.overrides name with
  | some o => o
  | none => none

/-- `OrderedDict` assignment `self._services[name] = service`: replace
in place when the key exists, otherwise append at the end. -/
def odInsert (m : List (String × ServiceInst)) (k : String) (v : ServiceInst) :
    List (String × ServiceInst) :=
  match m with
  | [] => [(k, v)]
  | (k', v') :: rest =>
    if k' == k then (k, v) :: rest else (k', v') :: odInsert rest k v

/-- The state a successfully constructed `GeocodeLookup` holds:
`self._services` (insertion order is configuration order) and
`self._credentials`. -/
structure LookupState where
  services : List (String × ServiceInst)
  credentials : Credentials

/-- The `for name in config["services"]` loop of
`GeocodeLookup.__init__`: per name, unknown services, names missing
from the credentials mapping, and missing required credential fields
raise `ConfigError` (modelled as `Except.error` with the message);
otherwise the service is instantiated, registered, and its URL override
applied. -/
def initLoop (config : Config) (credentials : Credentials) :
    List String → List (String × ServiceInst) →
    Except String (List (String × ServiceInst))
  | [], acc => .ok acc
  | name :: rest, acc =>
    match lookupEntry knownServices name with
    | none => .error ("unknown service: " ++ name)
    | some kind =>
      match lookupEntry credentials name with
      | none => .error (name ++ " is not in credentials file")
      | some entry =>
        match kind.requiredCredentials.find? (fun item => (lookupEntry entry item).isNone) with
        | some item => .error (name ++ " service requires " ++ item ++ " credential.")
        | none =>
          let svc : ServiceInst :=
            { kind := kind
              url :=
                match config.urlOverride name with
                | some u => u
                | none => kind.defaultUrl }
          initLoop config credentials rest (odInsert acc name svc)

/-- `GeocodeLookup.__init__`: no `"services"` key raises immediately;
then the per-name loop runs; a still-empty `self._services` afterwards
raises `"no services provided"`. -/
def geocodeLookupInit (config : Config) (credentials : Credentials) :
    Except String LookupState :=
  match config.services with
  | none => .error "no services defined"
  | some names =>
    match initLoop config credentials names [] with
    | .error e => .error e
    | .ok services =>
      if services.isEmpty then .error "no services provided"
      else .ok { services := services, credentials := credentials }

/-- What one provider's HTTP endpoint answers: the status code, and the
result of `response.read().decode()` followed by JSON parsing —
`Except.error ()` when the bytes are not UTF-8 (a `UnicodeError`),
`Except.ok none` for UTF-8 text that is not valid JSON, `Except.ok
(some js)` for text parsing to `js`. -/
structure ProviderResponse where
  code : Nat
  body : Except Unit (Option JValue)

/-- Outcome of one iteration of the provider loop in
`GeocodeLookup.request`. -/
inductive StepResult where
  /-- Status 200, body decoded, `process_response` returned a truthy
  coordinate dict: `request` returns immediately. -/
  | yield (lat lng : JValue)
  /-- Status 200, body decoded, `process_response` returned the empty
  dict: `missing` is set and the loop continues. -/
  | notFound
  /-- Non-200 status, a caught `UnicodeError`, or a caught
  `DataProcessingError`: logged, loop continues, `missing` unchanged. -/
  | skip
  /-- An exception from `self._credentials[name]` or from `prepare`
  that nothing in `request` catches. -/
  | bad (e : PyExc)

/-- `notFound` or `skip`: the provider was tried without yielding a
coordinate and without raising. -/
def StepResult.noYield : StepResult → Bool
  | .notFound => true
  | .skip => true
  | _ => false

/-- The loop sets `missing` on this step. -/
def StepResult.isNotFound : StepResult → Bool
  | .notFound => true
  | _ => false

/-- One iteration of the provider loop: look up the provider's
credentials entry, build the outbound URL with `prepare`, issue the GET
(`oracle` maps outbound URL to the endpoint's answer), and classify the
outcome exactly as the `try`/`except` in `request` does. -/
def tryService (credentials : Credentials) (oracle : String → ProviderResponse)
    (location : String) (name : String) (svc : ServiceInst) : StepResult :=
  match lookupEntry credentials name with
  | none => .bad .keyError
  | some entry =>
    match prepare svc entry location with
    | .error e => .bad e
    | .ok outbound =>
      let resp := oracle outbound
      if resp.code == 200 then
        match resp.body with
        | .error _ => .skip
        | .ok decoded =>
          match svc.kind.processResponse decoded with
          | .error _ => .skip
          | .ok .notFound => .notFound
          | .ok (.coord lat lng) => .yield lat lng
      else
        .skip

/-- What `GeocodeLookup.request` does, observably. -/
inductive RequestOutcome where
  /-- Returned `{"location": {"lat": lat, "lng": lng}, "served_by": servedBy}`. -/
  | found (lat lng : JValue) (servedBy : String)
  /-- Returned the empty dict `{}`. -/
  | empty
  /-- Raised `GeocodeLookup.Error("All services exhausted!")`. -/
  | exhausted
  /-- Some other exception escaped `request`. -/
  | uncaught (e : PyExc)

/-- The `for name, service in self._services.items()` loop of
`request`, carrying the `missing` flag; alongside the outcome it
returns the names of the providers actually contacted (those whose
`urlopen` call was reached), in order. -/
def requestLoop (credentials : Credentials) (oracle : String → ProviderResponse)
    (location : String) :
    List (String × ServiceInst) → Bool → RequestOutcome × List String
  | [], missing => (if missing then .empty else .exhausted, [])
  | (name, svc) :: rest, missing =>
    match tryService credentials oracle location name svc with
    | .bad e => (.uncaught e, [])
    | .yield lat lng => (.found lat lng name, [name])
    | .notFound =>
      let r := requestLoop credentials oracle location rest true
      (r.1, name :: r.2)
    | .skip =>
      let r := requestLoop credentials oracle location rest missing
      (r.1, name :: r.2)

/-- `GeocodeLookup.request(location)`: replace spaces with `+`, then
run the provider loop with `missing = False`. -/
def geocodeRequest (st : LookupState) (oracle : String → ProviderResponse)
    (location : String) : RequestOutcome × List String :=
  requestLoop st.credentials oracle (pyReplace location " " "+") st.services false

/-- An item appended to `Response._data`. -/
inductive RespItem where
  /-- A `bytes` payload (content given as text). -/
  | bytes (s : String)
  /-- Python `None` (what `Request.path` evaluates to). -/
  | pyNone
  /-- A `str` payload. -/
  | str (s : String)
  /-- The `json.dumps` text of the success envelope `{"response":
  result}`.  The serialization itself is kept abstract: no claim
  depends on its characters, only on this chunk being a non-empty
  string. -/
  | jsonOf (result : RequestOutcome)

/-- Python truthiness of a response item (`json.dumps` of a dict is at
least `"{}"`, hence truthy). -/
def RespItem.truthy : RespItem → Bool
  | .bytes s => s != ""
  | .pyNone => false
  | .str s => s != ""
  | .jsonOf _ => true

/-- What `Response` accumulates: `self._status`, `self._headers`,
`self._data` in append order. -/
structure ResponseState where
  status : Option Nat
  headers : Option (List (String × String))
  data : List RespItem

/-- A fresh `Response`. -/
def emptyResponse : ResponseState :=
  { status := none, headers := none, data := [] }

def plainTextHeaders : List (String × String) :=
  [("Content-type", "text/plain; charset=utf-8")]

def jsonHeaders : List (String × String) :=
  [("Content-type", "application/json; charset=utf-8")]

/-- `Response.as_error(data, status)`: plain-text headers, the given
status, and `data` appended after whatever is already buffered. -/
def asError (resp : ResponseState) (item : RespItem) (status : Nat) : ResponseState :=
  { resp with
    status := some status
    headers := some plainTextHeaders
    data := resp.data ++ [item] }

/-- `Response.as_json(data)`: JSON headers, status 200 OK, `data`
appended. -/
def asJson (resp : ResponseState) (item : RespItem) : ResponseState :=
  { resp with
    status := some 200
    headers := some jsonHeaders
    data := resp.data ++ [item] }

/-- `Response.add_data(data)`. -/
def addData (resp : ResponseState) (item : RespItem) : ResponseState :=
  { resp with data := resp.data ++ [item] }

/-- The chunks the finalization iterator hands the WSGI transport:
`__iter__` reverses `_data` and `__next__` pops from the end (so items
come back in append order), skipping every falsy item — including
Python `None` — and encoding the survivors, `bytes` verbatim and
anything else through `str`. -/
def renderBody (data : List RespItem) : List String :=
  (data.filter RespItem.truthy).map fun item =>
    match item with
    | .bytes s => s
    | .pyNone => "None"
    | .str s => s
    | .jsonOf _ => "<json>"

/-- The request view `service.py` constructs: `REQUEST_METHOD`,
`PATH_INFO` (stored as `self._path`) and the raw `QUERY_STRING`. -/
structure Request where
  method : String
  pathRaw : String
  qs : String

/-- The `path` property of `Request`.  Its body reads `self._path` but
has no `return` statement, so the property evaluates to `None` for
every request; `none` here is that `None`. -/
def Request.path (_ : Request) : Option String := none

/-- Attribute access `request.path_info`: `Request` defines no such
attribute (its field is `_path`, its property `path`), so the access
raises `AttributeError` for every request. -/
def Request.pathInfoAttr (_ : Request) : Except PyExc String :=
  .error .attributeError

/-- Split a character list at every occurrence of `sep`. -/
def splitOnChar (sep : Char) : List Char → List (List Char)
  | [] => [[]]
  | c :: rest =>
    let r := splitOnChar sep rest
    if c == sep then [] :: r
    else
      match r with
      | [] => [[c]]
      | g :: gs => (c :: g) :: gs

/-- Python's `str.partition('=')` restricted to what `parse_qsl` needs:
split at the first `=`, or `none` when there is none. -/
def splitFirstEq : List Char → Option (List Char × List Char)
  | [] => none
  | c :: rest =>
    if c == '=' then some ([], rest)
    else
      match splitFirstEq rest with
      | none => none
      | some (k, v) => some (c :: k, v)

/-- Append a value under a key, preserving first-occurrence key order,
as `parse_qs` aggregates repeated parameters. -/
def qsInsert (acc : List (String × List String)) (k v : String) :
    List (String × List String) :=
  match acc with
  | [] => [(k, [v])]
  | (k', vs) :: rest =>
    if k' == k then (k', vs ++ [v]) :: rest
    else (k', vs) :: qsInsert rest k v

/-- Shallow model of `urllib.parse.parse_qs` with its defaults: split
the query string on `&`, split each field at its first `=`, drop fields
with no `=` or a blank value (`keep_blank_values` is false), and decode
`+` in the value as a space.  Percent-decoding beyond `+` is not
modelled; no claim depends on it. -/
def parseQs (qs : String) : List (String × List String) :=
  (splitOnChar '&' qs.toList).foldl
    (fun acc part =>
      match splitFirstEq part with
      | none => acc
      | some (k, v) =>
        if v.isEmpty then acc
        else
          qsInsert acc (String.mk k)
            (pyReplace (String.mk v) "+" " "))
    []

/-- `GeocodeApp.lookup(location)`: delegate to
`self._lookup.request`, catching `self._lookup.Error`.  The re-raise is
`raise LookupError(str(e))`, and at method scope the bare name
`LookupError` resolves to Python's built-in `LookupError` — the class
attribute `GeocodeApp.LookupError` is not in scope there — so the
wrapped failure is the builtin, not `GeocodeApp.LookupError`.  Every
other exception propagates unchanged. -/
def appLookup (outcome : RequestOutcome) : Except PyExc RequestOutcome :=
  match outcome with
  | .exhausted => .error .builtinLookupError
  | .uncaught e => .error e
  | r => .ok r

/-- The `except GeocodeApp.LookupError` test in `handle_location`:
matches only instances of the class `GeocodeApp.LookupError`. -/
def isAppLookupError : PyExc → Bool
  | .appLookupError => true
  | _ => false

/-- `GeocodeApp.bad_request`: buffered data stays, then
`as_error(request.path, 400)` — and `request.path` is `None`. -/
def badRequest (resp : ResponseState) (req : Request) : ResponseState :=
  asError resp (match req.path with | some s => .str s | none => .pyNone) 400

/-- `GeocodeApp.not_found`: `as_error(request.path, 404)` with
`request.path` evaluating to `None`. -/
def notFoundResp (resp : ResponseState) (req : Request) : ResponseState :=
  asError resp (match req.path with | some s => .str s | none => .pyNone) 404

/-- `GeocodeApp.method_not_allowed`: the format string evaluates
`request.method`, then `request.path_info` — which raises
`AttributeError` before `as_error` can run. -/
def methodNotAllowed (resp : ResponseState) (req : Request) :
    Except PyExc ResponseState :=
  match req.pathInfoAttr with
  | .error e => .error e
  | .ok info => .ok (asError resp (.str (req.method ++ " : " ++ info)) 405)

/-- `handle_location(request)`: parse the query string; a missing or
empty `where` is a 400 with the fixed byte message buffered before
`bad_request` appends `request.path`; otherwise normalize the first
value (`replace("%20", "+")`), call `app.lookup`, and wrap success as
JSON.  The `except GeocodeApp.LookupError` branch would call
`app.service_unavailble` — a misspelled attribute, so reaching it
raises `AttributeError`; any exception the except clause does not match
escapes the handler. -/
def handleLocation (lookupFn : String → RequestOutcome) (req : Request)
    (resp : ResponseState) : Except PyExc ResponseState :=
  let qs := parseQs req.qs
  match lookupEntry qs "where" with
  | none =>
    .ok (badRequest (addData resp (.bytes "missing 'where' in query string")) req)
  | some [] =>
    .ok (badRequest (addData resp (.bytes "missing 'where' in query string")) req)
  | some (w :: _) =>
    let whereText := pyReplace w "%20" "+"
    match appLookup (lookupFn whereText) with
    | .ok result => .ok (asJson resp (.jsonOf result))
    | .error e =>
      if isAppLookupError e then .error .attributeError
      else .error e

/-- The registered route table built in `main`. -/
inductive RouteTag where
  | location
  deriving DecidableEq

/-- `routes = {"/location": handle_location}`. -/
def routes : List (String × RouteTag) := [("/location", .location)]

/-- `handler.supported_methods`. -/
def RouteTag.supportedMethods : RouteTag → List String
  | .location => ["GET"]

/-- Python's `str.rstrip('/')`: remove every trailing `/`. -/
def rstripSlash (s : String) : String :=
  String.mk (s.toList.reverse.dropWhile (fun c => c == '/')).reverse

/-- The WSGI environ entries `GeocodeApp.__call__` reads, each
defaulted when absent (`PATH_INFO` to `"/"`, `REQUEST_METHOD` to
`"GET"`, `QUERY_STRING` to `""`). -/
structure WSGIEnv where
  pathInfo : Option String
  requestMethod : Option String
  queryString : Option String

/-- `GeocodeApp.__call__`: pull the request data out of the environ,
strip trailing slashes from the path, look up the route (a `KeyError`
goes to `not_found`), reject unsupported methods through
`method_not_allowed`, else run the handler.  `lookupFn` is the behavior
of the engine behind `GeocodeApp.lookup`'s `self._lookup.request`.  An
`Except.error` is an exception escaping `__call__` (the WSGI server
would turn it into a 500, never into the handler's response). -/
def geocodeApp (lookupFn : String → RequestOutcome) (env : WSGIEnv) :
    Except PyExc ResponseState :=
  let pathInfo := env.pathInfo.getD "/"
  let method := env.requestMethod.getD "GET"
  let qs := env.queryString.getD ""
  let resp := emptyResponse
  let req : Request := { method := method, pathRaw := pathInfo, qs := qs }
  match lookupEntry routes (rstripSlash pathInfo) with
  | none => .ok (notFoundResp resp req)
  | some tag =>
    if method ∈ tag.supportedMethods then
      match tag with
      | .location => handleLocation lookupFn req resp
    else
      methodNotAllowed resp req

/-! ### Concrete fixtures used by the claim theorems and witnesses -/

/-- A credentials file carrying every field both known services need. -/
def credsFix : Credentials :=
  [("google", [("APP_KEY", "k")]), ("HERE", [("APP_ID", "i"), ("APP_CODE", "c")])]

/-- Configuration listing only the Google provider. -/
def cfgGoogleOnly : Config := { services := some ["google"], overrides := [] }

/-- The engine state `GeocodeLookup(cfgGoogleOnly, credsFix)` builds. -/
def stGoogleOnly : LookupState :=
  { services := [("google", { kind := .google, url := ServiceKind.google.defaultUrl })]
    credentials := credsFix }

/-- Every outbound GET answers 500: no provider is reachable. -/
def oracleDown : String → ProviderResponse :=
  fun _ => { code := 500, body := .ok none }

/-- Configuration listing Google first, HERE second. -/
def cfgTwo : Config := { services := some ["google", "HERE"], overrides := [] }

/-- The engine state `GeocodeLookup(cfgTwo, credsFix)` builds. -/
def stTwo : LookupState :=
  { services := [("google", { kind := .google, url := ServiceKind.google.defaultUrl }),
                 ("HERE", { kind := .here, url := ServiceKind.here.defaultUrl })]
    credentials := credsFix }

/-- The HERE sample response body of the repository's tests. -/
def hereGoodBody : JValue :=
  .jobj [("Response", .jobj [("View", .jarr [.jobj [("Result", .jarr [.jobj
    [("Location", .jobj [("NavigationPosition", .jarr [.jobj
      [("Latitude", .jfloat "41.88449"), ("Longitude", .jfloat "-87.6387699")]])])]])]])])]

/-- The outbound URL `prepare` builds for the HERE service of
`credsFix` and the location `Chicago`. -/
def hereUrlFix : String :=
  "https://geocoder.api.here.com/6.2/geocode.json?searchtext=Chicago&app_id=i&app_code=c"

/-- HERE answers 200 with the sample body; every other endpoint
(Google included) answers 500. -/
def oracleFallback : String → ProviderResponse :=
  fun u =>
    if u == hereUrlFix then { code := 200, body := .ok (some hereGoodBody) }
    else { code := 500, body := .ok none }

/-! ### C5 -/

/-- C5: for either adapter, a valid-JSON body whose top-level result
list is empty (Google: empty `"results"` array; HERE: empty
`"Response"."View"` array) makes `process_response` return the empty
dict (NotFound) without raising. -/
theorem empty_result_list_not_found
    (gfields rfields hfields : List (String × JValue))
    (hg : lookupKey gfields "results" = some (.jarr []))
    (hr : lookupKey hfields "Response" = some (.jobj rfields))
    (hv : lookupKey rfields "View" = some (.jarr [])) :
    googleProcessResponse (some (.jobj gfields)) = .ok .notFound ∧
    hereProcessResponse (some (.jobj hfields)) = .ok .notFound := by
  constructor
  · simp [googleProcessResponse, googleExtract, getItemStr, hg, JValue.truthy]
  · simp [hereProcessResponse, hereExtract, getItemStr, hr, hv, JValue.truthy]

/-- Witness for C5 at concrete empty-result bodies. -/
theorem empty_result_list_not_found_witness :
    lookupKey [("results", JValue.jarr [])] "results" = some (.jarr []) ∧
    googleProcessResponse (some (.jobj [("results", .jarr [])])) = .ok .notFound ∧
    hereProcessResponse (some (.jobj [("Response", .jobj [("View", .jarr [])])]))
      = .ok .notFound :=
  ⟨rfl,
   (empty_result_list_not_found [("results", .jarr [])] [("View", .jarr [])]
      [("Response", .jobj [("View", .jarr [])])] rfl rfl rfl).1,
   (empty_result_list_not_found [("results", .jarr [])] [("View", .jarr [])]
      [("Response", .jobj [("View", .jarr [])])] rfl rfl rfl).2⟩

/-! ### C6 — counterexample -/

/-- C6 as stated is false: a latitude/longitude **present** at the
expected path but of an entirely unexpected shape — here JSON `null` —
does not raise `DataProcessingError`; both adapters happily return it
as the coordinate. -/
theorem null_latitude_no_error_counterexample :
    googleProcessResponse (some (.jobj [("results", .jarr [.jobj [("geometry", .jobj
        [("location", .jobj [("lat", JValue.jnull), ("lng", JValue.jnull)])])]])]))
      = .ok (.coord .jnull .jnull) ∧
    hereProcessResponse (some (.jobj [("Response", .jobj [("View", .jarr [.jobj
        [("Result", .jarr [.jobj [("Location", .jobj [("NavigationPosition", .jarr
          [.jobj [("Latitude", JValue.jnull), ("Longitude", JValue.jnull)]])])]])]])])]))
      = .ok (.coord .jnull .jnull) :=
  ⟨rfl, rfl⟩

/-! ### C7 -/

/-- C7 as stated is false: a JSON **integer** literal at the latitude
or longitude position is decoded by `json.loads` to a Python int
(`parse_float=str` only touches float literals) and returned as that
int, not as a string. -/
theorem int_literal_not_string_counterexample :
    googleProcessResponse (some (.jobj [("results", .jarr [.jobj [("geometry", .jobj
        [("location", .jobj [("lat", JValue.jint 37), ("lng", JValue.jint 122)])])]])]))
      = .ok (.coord (.jint 37) (.jint 122)) ∧
    (JValue.jint 37).isPyStr = false :=
  ⟨rfl, rfl⟩

/-- C7 amended: for every JSON **float** literal (a numeric literal
with a fraction or exponent part) at the latitude/longitude position,
`process_response` returns exactly the literal's source text as a
string — `parse_float=str` keeps the text, and the adapters pass the
value through untouched, with no floating-point reparsing or
reformatting.  (Integer literals come back unchanged too, but as
Python ints.) -/
theorem float_literal_text_preserved
    (gfields r0f gf lf : List (String × JValue)) (rtail : List JValue)
    (slat slng : String)
    (hres : lookupKey gfields "results" = some (.jarr (.jobj r0f :: rtail)))
    (hgeo : lookupKey r0f "geometry" = some (.jobj gf))
    (hloc : lookupKey gf "location" = some (.jobj lf))
    (hlat : lookupKey lf "lat" = some (.jfloat slat))
    (hlng : lookupKey lf "lng" = some (.jfloat slng))
    (hfields rvf v0f hr0f lhf navf : List (String × JValue))
    (vtail rtail2 ntail : List JValue) (tlat tlng : String)
    (hresp : lookupKey hfields "Response" = some (.jobj rvf))
    (hview : lookupKey rvf "View" = some (.jarr (.jobj v0f :: vtail)))
    (hresult : lookupKey v0f "Result" = some (.jarr (.jobj hr0f :: rtail2)))
    (hloc2 : lookupKey hr0f "Location" = some (.jobj lhf))
    (hnav : lookupKey lhf "NavigationPosition" = some (.jarr (.jobj navf :: ntail)))
    (htlat : lookupKey navf "Latitude" = some (.jfloat tlat))
    (htlng : lookupKey navf "Longitude" = some (.jfloat tlng)) :
    googleProcessResponse (some (.jobj gfields))
      = .ok (.coord (.jfloat slat) (.jfloat slng)) ∧
    hereProcessResponse (some (.jobj hfields))
      = .ok (.coord (.jfloat tlat) (.jfloat tlng)) := by
  constructor
  · simp [googleProcessResponse, googleExtract, getItemStr, getItemIdx,
      hres, hgeo, hloc, hlat, hlng, JValue.truthy]
  · simp [hereProcessResponse, hereExtract, getItemStr, getItemIdx,
      hresp, hview, hresult, hloc2, hnav, htlat, htlng, JValue.truthy]

/-- Witness for C7 (amended) at the sample coordinates of the
repository's tests. -/
theorem float_literal_text_preserved_witness :
    lookupKey [("lat", JValue.jfloat "37.4224082"), ("lng", JValue.jfloat "-122.0856086")]
      "lat" = some (.jfloat "37.4224082") ∧
    googleProcessResponse (some (.jobj [("results", .jarr [.jobj [("geometry", .jobj
        [("location", .jobj [("lat", JValue.jfloat "37.4224082"),
          ("lng", JValue.jfloat "-122.0856086")])])]])]))
      = .ok (.coord (.jfloat "37.4224082") (.jfloat "-122.0856086")) ∧
    hereProcessResponse (some hereGoodBody)
      = .ok (.coord (.jfloat "41.88449") (.jfloat "-87.6387699")) := by
  refine ⟨rfl, ?_⟩
  have h := float_literal_text_preserved
    [("results", .jarr [.jobj [("geometry", .jobj [("location", .jobj
      [("lat", .jfloat "37.4224082"), ("lng", .jfloat "-122.0856086")])])]])]
    [("geometry", .jobj [("location", .jobj [("lat", .jfloat "37.4224082"),
      ("lng", .jfloat "-122.0856086")])])]
    [("location", .jobj [("lat", .jfloat "37.4224082"), ("lng", .jfloat "-122.0856086")])]
    [("lat", .jfloat "37.4224082"), ("lng", .jfloat "-122.0856086")]
    [] "37.4224082" "-122.0856086" rfl rfl rfl rfl rfl
    [("Response", .jobj [("View", .jarr [.jobj [("Result", .jarr [.jobj
      [("Location", .jobj [("NavigationPosition", .jarr [.jobj
        [("Latitude", .jfloat "41.88449"), ("Longitude", .jfloat "-87.6387699")]])])]])]])])]
    [("View", .jarr [.jobj [("Result", .jarr [.jobj [("Location", .jobj
      [("NavigationPosition", .jarr [.jobj [("Latitude", .jfloat "41.88449"),
        ("Longitude", .jfloat "-87.6387699")]])])]])]])]
    [("Result", .jarr [.jobj [("Location", .jobj [("NavigationPosition", .jarr
      [.jobj [("Latitude", .jfloat "41.88449"), ("Longitude", .jfloat "-87.6387699")]])])]])]
    [("Location", .jobj [("NavigationPosition", .jarr [.jobj
      [("Latitude", .jfloat "41.88449"), ("Longitude", .jfloat "-87.6387699")]])])]
    [("NavigationPosition", .jarr [.jobj [("Latitude", .jfloat "41.88449"),
      ("Longitude", .jfloat "-87.6387699")]])]
    [("Latitude", .jfloat "41.88449"), ("Longitude", .jfloat "-87.6387699")]
    [] [] [] "41.88449" "-87.6387699" rfl rfl rfl rfl rfl rfl rfl
  exact h

/-! ### C3, C8, C9 — the dispatch layer's broken error paths -/

/-- C3: the code contradicts the claim.  With a successfully
constructed single-provider engine whose provider answers 500,
`request` raises the exhaustion error — and the dispatcher run on
`GET /location?where=Chicago` lets Python's built-in `LookupError`
escape instead of producing any response: `GeocodeApp.lookup` re-raises
through the bare name `LookupError` (the builtin, not
`GeocodeApp.LookupError`), which the handler's
`except GeocodeApp.LookupError` does not match; no 503 is returned. -/
theorem lookup_error_escapes_handler :
    geocodeLookupInit cfgGoogleOnly credsFix = .ok stGoogleOnly ∧
    (geocodeRequest stGoogleOnly oracleDown "Chicago").1 = .exhausted ∧
    geocodeApp (fun loc => (geocodeRequest stGoogleOnly oracleDown loc).1)
      { pathInfo := some "/location", requestMethod := some "GET",
        queryString := some "where=Chicago" }
      = .error .builtinLookupError :=
  ⟨rfl, rfl, rfl⟩

/-- C8: the code contradicts the body part of the claim.  On
`GET /unknown` the dispatcher does produce a 404 plain-text response,
but its only body chunk is the `None` that the broken `Request.path`
property returns, and the response iterator drops falsy chunks — so
the streamed body is empty and does not contain the request path. -/
theorem unknown_path_404_empty_body :
    geocodeApp (fun loc => (geocodeRequest stGoogleOnly oracleDown loc).1)
      { pathInfo := some "/unknown", requestMethod := some "GET", queryString := some "" }
      = .ok { status := some 404, headers := some plainTextHeaders,
              data := [.pyNone] } ∧
    renderBody [RespItem.pyNone] = [] :=
  ⟨rfl, rfl⟩

/-- C9: the code contradicts the claim.  On `POST /location` the
dispatcher calls `method_not_allowed`, whose format string reads
`request.path_info` — an attribute `Request` does not define — so an
`AttributeError` escapes `__call__` and no 405 response is built. -/
theorem wrong_method_attribute_error :
    geocodeApp (fun loc => (geocodeRequest stGoogleOnly oracleDown loc).1)
      { pathInfo := some "/location", requestMethod := some "POST",
        queryString := some "where=Chicago" }
      = .error .attributeError :=
  rfl

/-! ### C6 — amended raise conditions -/

/-- A step of a JSON path, as the spec phrases the expected nested
paths: an object key or an array index. -/
inductive PathStep where
  | key (k : String)
  | idx (i : Nat)

/-- Spec-side JSON navigation: an object key looked up in an object,
an array index in an array; any other combination means the path is
absent or malformed (`none`).  This is deliberately independent of the
Python subscription semantics `getItemStr`/`getItemIdx`. -/
def jGet : JValue → PathStep → Option JValue
  | .jobj fields, .key k => lookupKey fields k
  | .jarr elems, .idx i => elems.get? i
  | _, _ => none

/-- Iterated spec-side navigation. -/
def jPath : JValue → List PathStep → Option JValue
  | v, [] => some v
  | v, s :: rest =>
    match jGet v s with
    | some w => jPath w rest
    | none => none

/-- Modelled from the claim's words for the Google adapter, minus the
disproved "unexpected shape" clause: the body is not valid JSON; or
`results` is absent/malformed; or `results` is non-empty (truthy) and
the nested path `results[0].geometry.location` is absent or malformed;
or that path exists but `lat` or `lng` is missing there. -/
def googleParseErrorSpec (body : Option JValue) : Prop :=
  match body with
  | none => True
  | some js =>
    match jGet js (.key "results") with
    | none => True
    | some results =>
      results.truthy = true ∧
        match jPath results [.idx 0, .key "geometry", .key "location"] with
        | none => True
        | some location =>
          jGet location (.key "lat") = none ∨ jGet location (.key "lng") = none

/-- Modelled from the claim's words for the HERE adapter, same
amendment: missing body JSON, absent/malformed `Response.View`, a
non-empty view with an absent/malformed path
`View[0].Result[0].Location.NavigationPosition[0]`, or a reachable
navigation position missing `Latitude` or `Longitude`. -/
def hereParseErrorSpec (body : Option JValue) : Prop :=
  match body with
  | none => True
  | some js =>
    match jPath js [.key "Response", .key "View"] with
    | none => True
    | some view =>
      view.truthy = true ∧
        match jPath view [.idx 0, .key "Result", .idx 0, .key "Location",
            .key "NavigationPosition", .idx 0] with
        | none => True
        | some nav =>
          jGet nav (.key "Latitude") = none ∨ jGet nav (.key "Longitude") = none

/-- Python subscription on a string always rejects a string key. -/
theorem getItemStr_jstr (s k : String) :
    getItemStr (.jstr s) k = .error .typeError := rfl

/-- A successful spec-side key step agrees with Python subscription. -/
theorem getItemStr_of_jGet_key {v w : JValue} {k : String}
    (h : jGet v (.key k) = some w) : getItemStr v k = .ok w := by
  cases v
  case jobj fields =>
    simp only [jGet] at h
    simp only [getItemStr, h]
  all_goals exact absurd h (by simp [jGet])

/-- A failed spec-side key step means Python subscription raises: a
missing key is `KeyError`, a non-dict is `TypeError`. -/
theorem getItemStr_err_of_jGet_key {v : JValue} {k : String}
    (h : jGet v (.key k) = none) : ∃ e, getItemStr v k = .error e := by
  cases v
  case jobj fields =>
    simp only [jGet] at h
    exact ⟨.keyError, by simp [getItemStr, h]⟩
  all_goals exact ⟨.typeError, rfl⟩

/-- A successful spec-side index step agrees with Python
subscription. -/
theorem getItemIdx_of_jGet_idx {v w : JValue} {i : Nat}
    (h : jGet v (.idx i) = some w) : getItemIdx v i = .ok w := by
  cases v
  case jarr elems =>
    simp only [jGet] at h
    simp only [getItemIdx]
    rw [h]
  all_goals exact absurd h (by simp [jGet])

/-- A failed spec-side index step means Python subscription either
raises, or — the one divergence — indexes a string (a `str`, possibly
a parsed float literal) into a one-character string; the subsequent
key subscription on that character then raises `TypeError`. -/
theorem getItemIdx_of_jGet_idx_none {v : JValue} {i : Nat}
    (h : jGet v (.idx i) = none) :
    (∃ e, getItemIdx v i = .error e) ∨
    ∃ c, getItemIdx v i = .ok (.jstr (String.mk [c])) := by
  cases v
  case jarr elems =>
    simp only [jGet] at h
    exact .inl ⟨.indexError, by simp only [getItemIdx]; rw [h]⟩
  case jstr s =>
    cases hc : s.toList.get? i with
    | none => exact .inl ⟨.indexError, by simp only [getItemIdx]; rw [hc]⟩
    | some c => exact .inr ⟨c, by simp only [getItemIdx]; rw [hc]⟩
  case jfloat lit =>
    cases hc : lit.toList.get? i with
    | none => exact .inl ⟨.indexError, by simp only [getItemIdx]; rw [hc]⟩
    | some c => exact .inr ⟨c, by simp only [getItemIdx]; rw [hc]⟩
  case jobj fields => exact .inl ⟨.keyError, rfl⟩
  all_goals exact .inl ⟨.typeError, rfl⟩

/-- C6 amended: each adapter's `process_response` raises
`DataProcessingError` whenever the body is not valid JSON, or the
expected nested path to a location is absent or malformed (below a
non-empty top-level result list), or the latitude/longitude fields are
missing at the expected path.  (The original claim's extra "or of an
unexpected shape" clause is disproved by the counterexample: present
values are returned as-is, whatever their shape.) -/
theorem parse_error_conditions (gbody hbody : Option JValue)
    (hg : googleParseErrorSpec gbody) (hh : hereParseErrorSpec hbody) :
    googleProcessResponse gbody = .error () ∧
    hereProcessResponse hbody = .error () := by
  constructor
  · cases gbody with
    | none => rfl
    | some js =>
      simp only [googleParseErrorSpec] at hg
      cases hres : jGet js (.key "results") with
      | none =>
        obtain ⟨e, he⟩ := getItemStr_err_of_jGet_key hres
        simp [googleProcessResponse, googleExtract, he]
      | some results =>
        rw [hres] at hg
        obtain ⟨htruthy, hrest⟩ := hg
        have hok := getItemStr_of_jGet_key hres
        cases hidx : jGet results (.idx 0) with
        | none =>
          rcases getItemIdx_of_jGet_idx_none hidx with ⟨e, he⟩ | ⟨c, hc⟩
          · simp [googleProcessResponse, googleExtract, hok, htruthy, he]
          · simp [googleProcessResponse, googleExtract, hok, htruthy, hc, getItemStr_jstr]
        | some r0 =>
          have hi := getItemIdx_of_jGet_idx hidx
          cases hgeo : jGet r0 (.key "geometry") with
          | none =>
            obtain ⟨e, he⟩ := getItemStr_err_of_jGet_key hgeo
            simp [googleProcessResponse, googleExtract, hok, htruthy, hi, he]
          | some geometry =>
            have hg2 := getItemStr_of_jGet_key hgeo
            cases hloc : jGet geometry (.key "location") with
            | none =>
              obtain ⟨e, he⟩ := getItemStr_err_of_jGet_key hloc
              simp [googleProcessResponse, googleExtract, hok, htruthy, hi, hg2, he]
            | some location =>
              have hl2 := getItemStr_of_jGet_key hloc
              simp only [jPath, hidx, hgeo, hloc] at hrest
              rcases hrest with hlat | hlng
              · obtain ⟨e, he⟩ := getItemStr_err_of_jGet_key hlat
                simp [googleProcessResponse, googleExtract, hok, htruthy, hi, hg2, hl2, he]
              · obtain ⟨e, he⟩ := getItemStr_err_of_jGet_key hlng
                cases hlat2 : getItemStr location "lat" with
                | error e2 =>
                  simp [googleProcessResponse, googleExtract, hok, htruthy, hi, hg2, hl2, hlat2]
                | ok vlat =>
                  simp [googleProcessResponse, googleExtract, hok, htruthy, hi, hg2, hl2,
                    hlat2, he]
  · cases hbody with
    | none => rfl
    | some js =>
      simp only [hereParseErrorSpec] at hh
      cases hresp : jGet js (.key "Response") with
      | none =>
        obtain ⟨e, he⟩ := getItemStr_err_of_jGet_key hresp
        simp [hereProcessResponse, hereExtract, he]
      | some response =>
        have hr2 := getItemStr_of_jGet_key hresp
        cases hview : jGet response (.key "View") with
        | none =>
          obtain ⟨e, he⟩ := getItemStr_err_of_jGet_key hview
          simp [hereProcessResponse, hereExtract, hr2, he]
        | some view =>
          have hv2 := getItemStr_of_jGet_key hview
          simp only [jPath, hresp, hview] at hh
          obtain ⟨htruthy, hrest⟩ := hh
          cases hidx : jGet view (.idx 0) with
          | none =>
            rcases getItemIdx_of_jGet_idx_none hidx with ⟨e, he⟩ | ⟨c, hc⟩
            · simp [hereProcessResponse, hereExtract, hr2, hv2, htruthy, he]
            · simp [hereProcessResponse, hereExtract, hr2, hv2, htruthy, hc, getItemStr_jstr]
          | some v0 =>
            have hi0 := getItemIdx_of_jGet_idx hidx
            cases hres : jGet v0 (.key "Result") with
            | none =>
              obtain ⟨e, he⟩ := getItemStr_err_of_jGet_key hres
              simp [hereProcessResponse, hereExtract, hr2, hv2, htruthy, hi0, he]
            | some result =>
              have hres2 := getItemStr_of_jGet_key hres
              cases hidx2 : jGet result (.idx 0) with
              | none =>
                rcases getItemIdx_of_jGet_idx_none hidx2 with ⟨e, he⟩ | ⟨c, hc⟩
                · simp [hereProcessResponse, hereExtract, hr2, hv2, htruthy, hi0, hres2, he]
                · simp [hereProcessResponse, hereExtract, hr2, hv2, htruthy, hi0, hres2,
                    hc, getItemStr_jstr]
              | some r0 =>
                have hi1 := getItemIdx_of_jGet_idx hidx2
                cases hloc : jGet r0 (.key "Location") with
                | none =>
                  obtain ⟨e, he⟩ := getItemStr_err_of_jGet_key hloc
                  simp [hereProcessResponse, hereExtract, hr2, hv2, htruthy, hi0, hres2,
                    hi1, he]
                | some location =>
                  have hl2 := getItemStr_of_jGet_key hloc
                  cases hnav : jGet location (.key "NavigationPosition") with
                  | none =>
                    obtain ⟨e, he⟩ := getItemStr_err_of_jGet_key hnav
                    simp [hereProcessResponse, hereExtract, hr2, hv2, htruthy, hi0, hres2,
                      hi1, hl2, he]
                  | some navPositions =>
                    have hn2 := getItemStr_of_jGet_key hnav
                    cases hidx3 : jGet navPositions (.idx 0) with
                    | none =>
                      rcases getItemIdx_of_jGet_idx_none hidx3 with ⟨e, he⟩ | ⟨c, hc⟩
                      · simp [hereProcessResponse, hereExtract, hr2, hv2, htruthy, hi0,
                          hres2, hi1, hl2, hn2, he]
                      · simp [hereProcessResponse, hereExtract, hr2, hv2, htruthy, hi0,
                          hres2, hi1, hl2, hn2, hc, getItemStr_jstr]
                    | some nav =>
                      have hi2 := getItemIdx_of_jGet_idx hidx3
                      simp only [jPath, hidx, hres, hidx2, hloc, hnav, hidx3] at hrest
                      rcases hrest with hlat | hlng
                      · obtain ⟨e, he⟩ := getItemStr_err_of_jGet_key hlat
                        simp [hereProcessResponse, hereExtract, hr2, hv2, htruthy, hi0,
                          hres2, hi1, hl2, hn2, hi2, he]
                      · obtain ⟨e, he⟩ := getItemStr_err_of_jGet_key hlng
                        cases hlat2 : getItemStr nav "Latitude" with
                        | error e2 =>
                          simp [hereProcessResponse, hereExtract, hr2, hv2, htruthy, hi0,
                            hres2, hi1, hl2, hn2, hi2, hlat2]
                        | ok vlat =>
                          simp [hereProcessResponse, hereExtract, hr2, hv2, htruthy, hi0,
                            hres2, hi1, hl2, hn2, hi2, hlat2, he]

/-- Witness for C6 (amended): a body with no `results` key, and a
non-JSON body for HERE. -/
theorem parse_error_conditions_witness :
    googleParseErrorSpec (some (.jobj [])) ∧ hereParseErrorSpec none ∧
    googleProcessResponse (some (.jobj [])) = .error () ∧
    hereProcessResponse none = .error () :=
  ⟨trivial, trivial,
   (parse_error_conditions (some (.jobj [])) none trivial trivial).1,
   (parse_error_conditions (some (.jobj [])) none trivial trivial).2⟩

/-! ### C4, C10 — constructor validation -/

/-- Modelled from the claim's words: a listed name is bad when it is
not a known service, has no entry in the credentials mapping, or its
entry lacks one of the service's required credential fields. -/
def badServiceSpec (creds : Credentials) (name : String) : Bool :=
  match lookupEntry knownServices name with
  | none => true
  | some kind =>
    match lookupEntry creds name with
    | none => true
    | some entry =>
      kind.requiredCredentials.any (fun field => (lookupEntry entry field).isNone)

/-- The invariant the constructor establishes for every registered
service: its class is the known one for its name, its URL is the
config override or the class default, and its credentials entry exists
and carries every required field. -/
def GoodEntry (config : Config) (creds : Credentials)
    (name : String) (svc : ServiceInst) : Prop :=
  lookupEntry knownServices name = some svc.kind ∧
  svc.url = (config.urlOverride name).getD svc.kind.defaultUrl ∧
  ∃ entry, lookupEntry creds name = some entry ∧
    ∀ field ∈ svc.kind.requiredCredentials, (lookupEntry entry field).isSome = true

/-- Members of an `OrderedDict` after assignment: an old member or the
assigned pair. -/
theorem odInsert_mem {m : List (String × ServiceInst)} {k : String} {v : ServiceInst}
    {p : String × ServiceInst} (hp : p ∈ odInsert m k v) : p ∈ m ∨ p = (k, v) := by
  induction m with
  | nil =>
    simp only [odInsert] at hp
    exact .inr (List.mem_singleton.mp hp)
  | cons head rest ih =>
    obtain ⟨hk, hv⟩ := head
    simp only [odInsert] at hp
    by_cases hkk : (hk == k) = true
    · rw [if_pos hkk] at hp
      rcases List.mem_cons.mp hp with h1 | h1
      · exact .inr h1
      · exact .inl (List.mem_cons_of_mem _ h1)
    · rw [if_neg hkk] at hp
      rcases List.mem_cons.mp hp with h1 | h1
      · exact .inl (h1 ▸ List.mem_cons_self _ _)
      · rcases ih h1 with h2 | h2
        · exact .inl (List.mem_cons_of_mem _ h2)
        · exact .inr h2

/-- `OrderedDict` assignment never empties the dict. -/
theorem odInsert_ne_nil (m : List (String × ServiceInst)) (k : String) (v : ServiceInst) :
    odInsert m k v ≠ [] := by
  cases m with
  | nil => simp [odInsert]
  | cons head rest =>
    obtain ⟨hk, hv⟩ := head
    simp only [odInsert]
    split <;> simp

/-- The constructor loop preserves the per-service invariant. -/
theorem initLoop_good {config : Config} {creds : Credentials} :
    ∀ (names : List String) (acc out : List (String × ServiceInst)),
      (∀ p ∈ acc, GoodEntry config creds p.1 p.2) →
      initLoop config creds names acc = .ok out →
      ∀ p ∈ out, GoodEntry config creds p.1 p.2 := by
  intro names
  induction names with
  | nil =>
    intro acc out hacc h
    simp only [initLoop, Except.ok.injEq] at h
    exact h ▸ hacc
  | cons name rest ih =>
    intro acc out hacc h
    cases hk : lookupEntry knownServices name with
    | none => simp [initLoop, hk] at h
    | some kind =>
      cases hc : lookupEntry creds name with
      | none => simp [initLoop, hk, hc] at h
      | some entry =>
        cases hf : kind.requiredCredentials.find?
            (fun item => (lookupEntry entry item).isNone) with
        | some item => simp [initLoop, hk, hc, hf] at h
        | none =>
          simp only [initLoop, hk, hc, hf] at h
          refine ih _ _ ?_ h
          intro p hp
          rcases odInsert_mem hp with hmem | hpkv
          · exact hacc p hmem
          · subst hpkv
            refine ⟨hk, ?_, entry, hc, ?_⟩
            · cases config.urlOverride name <;> rfl
            · intro field hfield
              have hnone := List.find?_eq_none.mp hf field hfield
              cases hv : lookupEntry entry field with
              | none => exact absurd (by simp [hv]) hnone
              | some v => simp

/-- If the loop finishes, every listed name passed all three checks. -/
theorem initLoop_ok_names {config : Config} {creds : Credentials} :
    ∀ (names : List String) (acc out : List (String × ServiceInst)),
      initLoop config creds names acc = .ok out →
      ∀ n ∈ names, badServiceSpec creds n = false := by
  intro names
  induction names with
  | nil => intro acc out h n hn; simp at hn
  | cons name rest ih =>
    intro acc out h n hn
    cases hk : lookupEntry knownServices name with
    | none => simp [initLoop, hk] at h
    | some kind =>
      cases hc : lookupEntry creds name with
      | none => simp [initLoop, hk, hc] at h
      | some entry =>
        cases hf : kind.requiredCredentials.find?
            (fun item => (lookupEntry entry item).isNone) with
        | some item => simp [initLoop, hk, hc, hf] at h
        | none =>
          simp only [initLoop, hk, hc, hf] at h
          rcases List.mem_cons.mp hn with hn1 | hn2
          · subst hn1
            simp only [badServiceSpec, hk, hc]
            rw [List.any_eq_false]
            intro field hfield
            exact List.find?_eq_none.mp hf field hfield
          · exact ih _ _ h n hn2

/-- If every listed name passes the checks, the loop finishes, and
with a non-empty result when anything was listed or accumulated. -/
theorem initLoop_ok_of_good {config : Config} {creds : Credentials} :
    ∀ (names : List String) (acc : List (String × ServiceInst)),
      (∀ n ∈ names, badServiceSpec creds n = false) →
      ∃ out, initLoop config creds names acc = .ok out ∧
        ((acc ≠ [] ∨ names ≠ []) → out ≠ []) := by
  intro names
  induction names with
  | nil =>
    intro acc hgood
    refine ⟨acc, rfl, ?_⟩
    rintro (h | h)
    · exact h
    · exact absurd rfl h
  | cons name rest ih =>
    intro acc hgood
    have hname := hgood name (List.mem_cons_self _ _)
    cases hk : lookupEntry knownServices name with
    | none => simp [badServiceSpec, hk] at hname
    | some kind =>
      cases hc : lookupEntry creds name with
      | none => simp [badServiceSpec, hk, hc] at hname
      | some entry =>
        have hfind : kind.requiredCredentials.find?
            (fun item => (lookupEntry entry item).isNone) = none := by
          rw [List.find?_eq_none]
          intro field hfield
          simp only [badServiceSpec, hk, hc] at hname
          exact List.any_eq_false.mp hname field hfield
        obtain ⟨out, hout, hne⟩ :=
          ih (odInsert acc name
            { kind := kind
              url :=
                match config.urlOverride name with
                | some u => u
                | none => kind.defaultUrl })
            (fun n hn => hgood n (List.mem_cons_of_mem _ hn))
        refine ⟨out, ?_, fun _ => hne (.inl (odInsert_ne_nil _ _ _))⟩
        simp only [initLoop, hk, hc, hfind]
        exact hout

/-- C4: `GeocodeLookup` construction raises `ConfigError` exactly when
the config has no `"services"` key, the list is empty, or some listed
name is unknown, absent from the credentials mapping, or missing a
required credential field in its entry; otherwise it succeeds, and
every registered adapter\'s URL is the per-service config override when
one is given, else the class default. -/
theorem init_config_characterization (config : Config) (creds : Credentials) :
    ((∃ st, geocodeLookupInit config creds = .ok st) ↔
      ∃ names, config.services = some names ∧ names ≠ [] ∧
        ∀ n ∈ names, badServiceSpec creds n = false) ∧
    ∀ st, geocodeLookupInit config creds = .ok st →
      ∀ p ∈ st.services,
        p.2.url = (config.urlOverride p.1).getD p.2.kind.defaultUrl := by
  constructor
  · constructor
    · rintro ⟨st, hst⟩
      cases hs : config.services with
      | none => simp [geocodeLookupInit, hs] at hst
      | some names =>
        cases hloop : initLoop config creds names [] with
        | error e => simp [geocodeLookupInit, hs, hloop] at hst
        | ok services =>
          refine ⟨names, rfl, ?_, initLoop_ok_names names [] services hloop⟩
          rintro rfl
          simp only [initLoop, Except.ok.injEq] at hloop
          subst hloop
          simp [geocodeLookupInit, hs, initLoop] at hst
    · rintro ⟨names, hs, hne, hgood⟩
      obtain ⟨out, hout, houtne⟩ := @initLoop_ok_of_good config creds names [] hgood
      have hne2 : out ≠ [] := houtne (.inr hne)
      refine ⟨{ services := out, credentials := creds }, ?_⟩
      simp only [geocodeLookupInit, hs, hout]
      simp [List.isEmpty_iff, hne2]
  · intro st hst p hp
    cases hs : config.services with
    | none => simp [geocodeLookupInit, hs] at hst
    | some names =>
      cases hloop : initLoop config creds names [] with
      | error e => simp [geocodeLookupInit, hs, hloop] at hst
      | ok services =>
        simp only [geocodeLookupInit, hs, hloop] at hst
        by_cases hempty : services.isEmpty
        · rw [if_pos hempty] at hst; exact absurd hst (by simp)
        · rw [if_neg hempty] at hst
          simp only [Except.ok.injEq] at hst
          subst hst
          have := initLoop_good names [] services (by simp) hloop p hp
          exact this.2.1

/-- C10: after a successful construction, every registered service has
a credentials entry, and `prepare`\'s dictionary lookups on it always
succeed. -/
theorem init_credentials_sufficient (config : Config) (creds : Credentials)
    (st : LookupState) (hinit : geocodeLookupInit config creds = .ok st) :
    ∀ p ∈ st.services, ∃ entry, lookupEntry st.credentials p.1 = some entry ∧
      ∀ location, ∃ url, prepare p.2 entry location = .ok url := by
  intro p hp
  cases hs : config.services with
  | none => simp [geocodeLookupInit, hs] at hinit
  | some names =>
    cases hloop : initLoop config creds names [] with
    | error e => simp [geocodeLookupInit, hs, hloop] at hinit
    | ok services =>
      simp only [geocodeLookupInit, hs, hloop] at hinit
      by_cases hempty : services.isEmpty
      · rw [if_pos hempty] at hinit; exact absurd hinit (by simp)
      · rw [if_neg hempty] at hinit
        simp only [Except.ok.injEq] at hinit
        subst hinit
        have hgood := initLoop_good names [] services (by simp) hloop p hp
        obtain ⟨hkind, hurl, entry, hentry, hfields⟩ := hgood
        refine ⟨entry, hentry, ?_⟩
        intro location
        cases hkcase : p.2.kind with
        | google =>
          have h1 := hfields "APP_KEY"
            (by rw [hkcase]; simp [ServiceKind.requiredCredentials])
          obtain ⟨key, hkey⟩ := Option.isSome_iff_exists.mp h1
          exact ⟨p.2.url ++ "?" ++ urlencode [("address", location), ("key", key)],
            by simp only [prepare, hkcase, hkey]⟩
        | here =>
          have h1 := hfields "APP_ID"
            (by rw [hkcase]; simp [ServiceKind.requiredCredentials])
          have h2 := hfields "APP_CODE"
            (by rw [hkcase]; simp [ServiceKind.requiredCredentials])
          obtain ⟨appId, hid⟩ := Option.isSome_iff_exists.mp h1
          obtain ⟨appCode, hcode⟩ := Option.isSome_iff_exists.mp h2
          exact ⟨p.2.url ++ "?" ++ urlencode
              [("searchtext", location), ("app_id", appId), ("app_code", appCode)],
            by simp only [prepare, hkcase, hid, hcode]⟩

/-! ### C1, C2 — the fallback loop -/

/-- Running the loop past a prefix of providers that neither yield nor
raise, up to a provider that yields a coordinate: the loop returns that
provider's coordinate tagged with its name, whatever the `missing` flag
and whatever comes after, and the contacted providers are exactly the
prefix and the yielding one. -/
theorem requestLoop_prefix_yield (creds : Credentials)
    (oracle : String → ProviderResponse) (location : String) :
    ∀ (pre : List (String × ServiceInst)) (name : String) (svc : ServiceInst)
      (post : List (String × ServiceInst)) (lat lng : JValue) (missing : Bool),
      (∀ p ∈ pre, (tryService creds oracle location p.1 p.2).noYield = true) →
      tryService creds oracle location name svc = .yield lat lng →
      requestLoop creds oracle location (pre ++ (name, svc) :: post) missing =
        (.found lat lng name, pre.map Prod.fst ++ [name]) := by
  intro pre
  induction pre with
  | nil =>
    intro name svc post lat lng missing hpre hy
    simp only [List.nil_append, requestLoop, hy, List.map_nil]
  | cons head rest ih =>
    intro name svc post lat lng missing hpre hy
    obtain ⟨hn, hs⟩ := head
    have hhead := hpre (hn, hs) (List.mem_cons_self _ _)
    simp only [List.cons_append, requestLoop, List.append_eq]
    cases ht : tryService creds oracle location hn hs with
    | yield a b => rw [ht] at hhead; simp [StepResult.noYield] at hhead
    | bad e => rw [ht] at hhead; simp [StepResult.noYield] at hhead
    | notFound =>
      simp only [ht]
      rw [ih name svc post lat lng true
        (fun p hp => hpre p (List.mem_cons_of_mem _ hp)) hy]
      simp
    | skip =>
      simp only [ht]
      rw [ih name svc post lat lng missing
        (fun p hp => hpre p (List.mem_cons_of_mem _ hp)) hy]
      simp

/-- Running the loop over providers none of which yields or raises:
the outcome is `{}` when the `missing` flag is set or some provider
answered an authoritative not-found, the exhaustion error otherwise,
and every provider is contacted. -/
theorem requestLoop_no_yield (creds : Credentials)
    (oracle : String → ProviderResponse) (location : String) :
    ∀ (l : List (String × ServiceInst)) (missing : Bool),
      (∀ p ∈ l, (tryService creds oracle location p.1 p.2).noYield = true) →
      requestLoop creds oracle location l missing =
        (if missing ||
            l.any (fun p => (tryService creds oracle location p.1 p.2).isNotFound)
         then .empty else .exhausted, l.map Prod.fst) := by
  intro l
  induction l with
  | nil => intro missing h; simp [requestLoop]
  | cons head rest ih =>
    intro missing h
    obtain ⟨hn, hs⟩ := head
    have hhead := h (hn, hs) (List.mem_cons_self _ _)
    simp only [requestLoop]
    cases ht : tryService creds oracle location hn hs with
    | yield a b => rw [ht] at hhead; simp [StepResult.noYield] at hhead
    | bad e => rw [ht] at hhead; simp [StepResult.noYield] at hhead
    | notFound =>
      simp only [ht]
      rw [ih true (fun p hp => h p (List.mem_cons_of_mem _ hp))]
      have hnf : (tryService creds oracle location hn hs).isNotFound = true := by
        rw [ht]; rfl
      simp [List.any_cons, hnf]
    | skip =>
      simp only [ht]
      rw [ih missing (fun p hp => h p (List.mem_cons_of_mem _ hp))]
      have hnf : (tryService creds oracle location hn hs).isNotFound = false := by
        rw [ht]; rfl
      simp only [List.any_cons, hnf, Bool.false_or, List.map_cons]

/-- C1: for a successfully constructed `GeocodeLookup` and any
location, if every provider before some position neither yields a
coordinate nor raises, and the provider at that position answers 200
with a decodable body parsing to a non-empty coordinate, then `request`
returns that coordinate tagged `served_by` that provider — for every
possible tail of later providers, none of which is contacted: the
contact trace stops at the yielding provider. -/
theorem request_first_success (config : Config) (creds : Credentials)
    (st : LookupState) (oracle : String → ProviderResponse) (location : String)
    (pre post : List (String × ServiceInst)) (name : String) (svc : ServiceInst)
    (lat lng : JValue)
    (hinit : geocodeLookupInit config creds = .ok st)
    (hsplit : st.services = pre ++ (name, svc) :: post)
    (hpre : ∀ p ∈ pre,
      (tryService st.credentials oracle (pyReplace location " " "+") p.1 p.2).noYield
        = true)
    (hyield : tryService st.credentials oracle (pyReplace location " " "+") name svc
      = .yield lat lng) :
    geocodeRequest st oracle location =
      (.found lat lng name, pre.map Prod.fst ++ [name]) := by
  rw [geocodeRequest, hsplit]
  exact requestLoop_prefix_yield st.credentials oracle (pyReplace location " " "+")
    pre name svc post lat lng false hpre hyield

/-- Witness for C1: the claim's own `[A, B]` scenario — Google answers
500, HERE answers 200 with the sample body; `request` returns HERE's
coordinate tagged `served_by: HERE` after contacting both in order. -/
theorem request_first_success_witness :
    geocodeLookupInit cfgTwo credsFix = .ok stTwo ∧
    geocodeRequest stTwo oracleFallback "Chicago" =
      (.found (.jfloat "41.88449") (.jfloat "-87.6387699") "HERE",
       ["google", "HERE"]) :=
  ⟨rfl,
   request_first_success cfgTwo credsFix stTwo oracleFallback "Chicago"
     [("google", { kind := .google, url := ServiceKind.google.defaultUrl })] []
     "HERE" { kind := .here, url := ServiceKind.here.defaultUrl }
     (.jfloat "41.88449") (.jfloat "-87.6387699")
     rfl rfl
     (by
       intro p hp
       have := List.mem_singleton.mp hp
       subst this
       rfl)
     rfl⟩

/-- C2: for a successfully constructed `GeocodeLookup` and any
location, if every provider is tried without yielding a coordinate —
each one either answered 200 with a body parsing to the empty result,
or was skipped over a non-200 status, an undecodable body, or a
`DataProcessingError` — then `request` returns the empty dict when at
least one provider answered the authoritative not-found, and raises
the exhaustion error (`GeocodeLookup.Error`) when every provider was
merely skipped. -/
theorem request_exhaustion_outcome (config : Config) (creds : Credentials)
    (st : LookupState) (oracle : String → ProviderResponse) (location : String)
    (hinit : geocodeLookupInit config creds = .ok st)
    (hall : ∀ p ∈ st.services,
      (tryService st.credentials oracle (pyReplace location " " "+") p.1 p.2).noYield
        = true) :
    geocodeRequest st oracle location =
      (if st.services.any (fun p =>
          (tryService st.credentials oracle (pyReplace location " " "+") p.1 p.2).isNotFound)
       then .empty else .exhausted,
       st.services.map Prod.fst) := by
  rw [geocodeRequest,
    requestLoop_no_yield st.credentials oracle (pyReplace location " " "+")
      st.services false hall]
  simp only [Bool.false_or]

/-- Witness for C2: a single Google provider answering 500 — no
not-found was seen, so the outcome is the exhaustion error. -/
theorem request_exhaustion_outcome_witness :
    geocodeLookupInit cfgGoogleOnly credsFix = .ok stGoogleOnly ∧
    geocodeRequest stGoogleOnly oracleDown "Chicago" = (.exhausted, ["google"]) :=
  ⟨rfl,
   request_exhaustion_outcome cfgGoogleOnly credsFix stGoogleOnly oracleDown "Chicago"
     rfl
     (by
       intro p hp
       have := List.mem_singleton.mp hp
       subst this
       rfl)⟩

/-- Witness for C10 at the two-provider fixture. -/
theorem init_credentials_sufficient_witness :
    ∃ entry, lookupEntry stTwo.credentials "google" = some entry ∧
      ∀ location, ∃ url,
        prepare { kind := .google, url := ServiceKind.google.defaultUrl } entry location
          = .ok url :=
  init_credentials_sufficient cfgTwo credsFix stTwo rfl
    ("google", { kind := .google, url := ServiceKind.google.defaultUrl })
    (List.mem_cons_self _ _)

end GeocodeWsgi
